import Mathlib

/-!
Verification development for a weather ETL pipeline.

The embedding models the Python modules of the repository:
  - `src/utils.py`: `retry_on_failure`, `validate_weather_data`
  - `src/extract.py`: `WeatherExtractor.fetch_weather_by_city`,
    `fetch_weather_for_cities`
  - `src/transform.py`: `weather_transformer.transform_single_record`,
    `transform_multiple_records`, `validate_transformed_data`
  - `src/load.py`: `WeatherLoader.load_city`, `load_weather_condition`,
    `load_measurement`, `load_weather_record`, `load_multiple_records`
  - `main.py`: `run_etl_pipeline`

Python dictionaries with possibly-missing keys are modelled by structures
with `Option`-typed fields; a key access `d[k]` that can raise `KeyError`
becomes a bind in the `Option` monad (the surrounding `try/except` of the
Python code returns `None`/`False`, i.e. the `Option` failure).  Numeric
JSON values are modelled by `ℚ` (temperatures, coordinates, wind speed)
and `ℤ` (integer-valued fields, unix timestamps).  `datetime.fromtimestamp`
is injective on unix times, so timestamps are carried as the underlying
integer.  Exceptions crossing a function boundary are modelled with
`Except`; the database is an explicit record of table contents with the
data-layer failure of an operation ("SQLAlchemyError") injected as an
explicit fault flag, since it is environmental.
-/

/-- The `coord` sub-dictionary of a raw provider record. -/
structure Coord where
  lat : Option ℚ
  lon : Option ℚ
deriving DecidableEq

/-- One entry of the `weather` list of a raw provider record. -/
structure WeatherEntry where
  main : Option String
  description : Option String
  icon : Option String
deriving DecidableEq

/-- The `main` measurement sub-dictionary of a raw provider record. -/
structure MainBlock where
  temp : Option ℚ
  feels_like : Option ℚ
  temp_min : Option ℚ
  temp_max : Option ℚ
  pressure : Option ℤ
  humidity : Option ℤ
deriving DecidableEq

/-- The `wind` sub-dictionary of a raw provider record. -/
structure WindBlock where
  speed : Option ℚ
  deg : Option ℤ
deriving DecidableEq

/-- The `clouds` sub-dictionary of a raw provider record. -/
structure CloudsBlock where
  all : Option ℤ
deriving DecidableEq

/-- The `sys` sub-dictionary of a raw provider record. -/
structure SysBlock where
  country : Option String
deriving DecidableEq

/-- A raw provider JSON record, as read by the transformer: every key the
code accesses is a field, `none` meaning the key is absent. -/
structure RawRecord where
  coord : Option Coord
  weather : Option (List WeatherEntry)
  main : Option MainBlock
  visibility : Option ℤ
  wind : Option WindBlock
  clouds : Option CloudsBlock
  dt : Option ℤ
  sys : Option SysBlock
  timezone : Option ℤ
  name : Option String
deriving DecidableEq

/-- Python truthiness of the raw dict (`if data:` in
`fetch_weather_for_cities`): an empty dict is falsy, so the record is
truthy when at least one key is present. -/
def RawRecord.truthy (r : RawRecord) : Bool :=
  r.coord.isSome || r.weather.isSome || r.main.isSome || r.visibility.isSome ||
  r.wind.isSome || r.clouds.isSome || r.dt.isSome || r.sys.isSome ||
  r.timezone.isSome || r.name.isSome

/-- `city_data` built by `transform_single_record`. -/
structure City where
  city_name : String
  country_code : String
  latitude : ℚ
  longitude : ℚ
  timezone_offset : ℤ
deriving DecidableEq

/-- `condition_data` built by `transform_single_record`. -/
structure Condition where
  main_condition : String
  description : String
  icon_code : String
deriving DecidableEq

/-- `measurement_data` built by `transform_single_record`. -/
structure Measurement where
  temperature_celsius : ℚ
  feels_like_celsius : ℚ
  temp_min_celsius : ℚ
  temp_max_celsius : ℚ
  pressure_hpa : ℤ
  humidity_percent : ℤ
  visibility_meters : Option ℤ
  wind_speed_mps : Option ℚ
  wind_direction_degrees : Option ℤ
  cloudiness_percent : Option ℤ
  measurement_timestamp : ℤ
  api_call_timestamp : ℤ
deriving DecidableEq

/-- The dictionary returned by `transform_single_record`. -/
structure TransformedData where
  city : City
  condition : Condition
  measurement : Measurement
deriving DecidableEq

/-- Input shape of `validate_transformed_data`: a dict in which any of the
three sections may be missing (the function checks for them). -/
structure TransformedDict where
  city : Option City
  condition : Option Condition
  measurement : Option Measurement
deriving DecidableEq

/-- Round half to even at the integer level, the behaviour of Python
`round` on an exactly representable value. -/
def roundHalfEven (x : ℚ) : ℤ :=
  if x - ⌊x⌋ < 1/2 then ⌊x⌋
  else if x - ⌊x⌋ > 1/2 then ⌊x⌋ + 1
  else if ⌊x⌋ % 2 = 0 then ⌊x⌋ else ⌊x⌋ + 1

/-- Python `round(x, 2)`. -/
def round2 (x : ℚ) : ℚ := (roundHalfEven (x * 100) : ℚ) / 100

/-- `src/utils.py::validate_weather_data`: raises unless the required
top-level keys `coord`, `main`, `name` are present, then raises when the
(truthy) raw `main.temp` lies outside `[-100, 60]`.  `true` means the
function returned normally; `false` that it raised `ValueError` (which the
caller `transform_single_record` catches, returning `None`).  Note the
Python guard `if temp_celsius and ...`: a missing or zero temperature
skips the range check. -/
def validate_weather_data (data : RawRecord) : Bool :=
  data.coord.isSome && data.main.isSome && data.name.isSome &&
    (match data.main.bind MainBlock.temp with
     | some t => !(t ≠ 0 && (t < -100 || t > 60))
     | none => true)

/-- The `city_data` dict literal of `transform_single_record`: `none`
when one of the keys read with `[]` is missing (`KeyError`). -/
def map_city_data (raw : RawRecord) : Option City :=
  raw.name.bind fun name =>
  raw.sys.bind fun sys =>
  sys.country.bind fun country =>
  raw.coord.bind fun coord =>
  coord.lat.bind fun lat =>
  coord.lon.bind fun lon =>
  some
    { city_name := name, country_code := country, latitude := lat,
      longitude := lon, timezone_offset := raw.timezone.getD 0 }

/-- The `condition_data` dict literal of `transform_single_record`,
built from `raw_data["weather"][0]` (`none` on a missing key or an empty
list, i.e. `KeyError`/`IndexError`). -/
def map_condition_data (raw : RawRecord) : Option Condition :=
  raw.weather.bind fun entries =>
  entries.head?.bind fun weather_info =>
  weather_info.main.bind fun cmain =>
  weather_info.description.bind fun cdesc =>
  weather_info.icon.bind fun cicon =>
  some { main_condition := cmain, description := cdesc, icon_code := cicon }

/-- The `measurement_data` dict literal of `transform_single_record`.
The required `main` fields and `dt` are read with `[]` (possible
`KeyError`); `visibility`, `wind.speed`, `wind.deg` and `clouds.all` are
read with `.get`, defaulting to `None`.  `now` is the wall-clock value
`datetime.now()` returns at this invocation. -/
def map_measurement_data (now : ℤ) (raw : RawRecord) : Option Measurement :=
  raw.main.bind fun main_data =>
  main_data.temp.bind fun temp =>
  main_data.feels_like.bind fun feels =>
  main_data.temp_min.bind fun tmin =>
  main_data.temp_max.bind fun tmax =>
  main_data.pressure.bind fun pres =>
  main_data.humidity.bind fun hum =>
  raw.dt.bind fun dtv =>
  some
    { temperature_celsius := round2 temp,
      feels_like_celsius := round2 feels,
      temp_min_celsius := round2 tmin,
      temp_max_celsius := round2 tmax,
      pressure_hpa := pres,
      humidity_percent := hum,
      visibility_meters := raw.visibility,
      wind_speed_mps := raw.wind.bind WindBlock.speed,
      wind_direction_degrees := raw.wind.bind WindBlock.deg,
      cloudiness_percent := (raw.clouds.getD { all := none }).all,
      measurement_timestamp := dtv,
      api_call_timestamp := now }

/-- `src/transform.py::transform_single_record`: validates the raw
record, then maps it into the city/condition/measurement sub-records.
Any `KeyError` (a missing key accessed with `[]`) or other exception in
the body is caught and yields `None`. -/
def transform_single_record (now : ℤ) (raw : RawRecord) : Option TransformedData :=
  if validate_weather_data raw then
    (map_city_data raw).bind fun city =>
    (map_condition_data raw).bind fun condition =>
    (map_measurement_data now raw).bind fun measurement =>
    some { city := city, condition := condition, measurement := measurement }
  else none

/-- `src/transform.py::transform_multiple_records`: transforms each
element, appending only the truthy (non-`None`) results, in order. -/
def transform_multiple_records (now : ℤ) (raw_data_list : List RawRecord) :
    List TransformedData :=
  match raw_data_list with
  | [] => []
  | raw :: rest =>
    match transform_single_record now raw with
    | some t => t :: transform_multiple_records now rest
    | none => transform_multiple_records now rest

/-- `src/transform.py::validate_transformed_data`: checks the three
sections are present, then that temperature lies in `[-100, 60]` and
humidity in `[0, 100]`. -/
def validate_transformed_data (transformed_data : TransformedDict) : Bool :=
  match transformed_data.city, transformed_data.condition,
      transformed_data.measurement with
  | some _, some _, some m =>
    if m.temperature_celsius < -100 || m.temperature_celsius > 60 then false
    else if m.humidity_percent < 0 || m.humidity_percent > 100 then false
    else true
  | _, _, _ => false

/-- A `{"name": ..., "country": ...}` entry of the configured city list,
read with `.get` in `fetch_weather_for_cities`. -/
structure CityQuery where
  name : Option String
  country : Option String
deriving DecidableEq

/-- `config/config.py::Config.MAX_RETRIES`. -/
def Config.MAX_RETRIES : ℕ := 3

/-- `config/config.py::Config.RETRY_DELAY`. -/
def Config.RETRY_DELAY : ℕ := 5

/-- `config/config.py::Config.CITIES`. -/
def Config.CITIES : List CityQuery :=
  [⟨some "London", some "GB"⟩, ⟨some "New York", some "US"⟩,
   ⟨some "Tokyo", some "JP"⟩, ⟨some "Paris", some "FR"⟩,
   ⟨some "Sydney", some "AU"⟩, ⟨some "Mumbai", some "IN"⟩,
   ⟨some "Dubai", some "AE"⟩, ⟨some "Singapore", some "SG"⟩,
   ⟨some "Toronto", some "CA"⟩, ⟨some "Berlin", some "DE"⟩]

/-- Outcome of the single bounded-timeout HTTP GET performed by one
invocation of the body of `fetch_weather_by_city`. -/
inductive HttpOutcome where
  /-- 2xx status and a JSON body. -/
  | success (data : RawRecord)
  /-- `raise_for_status` raised `HTTPError` with this status code. -/
  | httpError (status : ℕ)
  /-- the request timed out (`requests.exceptions.Timeout`). -/
  | timeout
  /-- another `requests.exceptions.RequestException`. -/
  | requestError
deriving DecidableEq

/-- The one exception kind that escapes the body of
`fetch_weather_by_city` (every other request failure is caught there and
turned into `None`). -/
inductive ExtractErr where
  | timeout
deriving DecidableEq

/-- The body of `src/extract.py::fetch_weather_by_city` (inside the
`retry_on_failure` decorator), as a function of the HTTP outcome:
HTTP 401, 404 and any other `HTTPError` status are logged and give
`None`; a generic `RequestException` gives `None`; a timeout is
re-raised; a successful response returns its JSON body. -/
def fetch_weather_by_city (outcome : HttpOutcome) :
    Except ExtractErr (Option RawRecord) :=
  match outcome with
  | .success data => .ok (some data)
  | .httpError _ => .ok none
  | .timeout => .error .timeout
  | .requestError => .ok none

/-- The loop of `src/utils.py::retry_on_failure`, at `attempt` with
`remaining` loop iterations left.  `f i` is the outcome of the wrapped
call on attempt `i`: a return value, or the exception it raised.  When a
call returns, its value is returned at once; when it raises and this was
the last iteration (`attempt == max_retries - 1`), the exception is
re-raised; otherwise the wrapper sleeps and retries.  Falling out of the
loop (possible only when `max_retries = 0`) returns Python implicit
`None`. -/
def retry_loop (f : ℕ → Except ε (Option α)) (attempt : ℕ) :
    (remaining : ℕ) → Except ε (Option α)
  | 0 => .ok none
  | r + 1 =>
    match f attempt with
    | .ok v => .ok v
    | .error e => if r = 0 then .error e else retry_loop f (attempt + 1) r

/-- `src/utils.py::retry_on_failure(max_retries, delay)` applied to a
call whose attempt outcomes are `f`.  `delay` only feeds `time.sleep`
between attempts and does not affect the returned value. -/
def retry_on_failure (max_retries : ℕ) (_delay : ℕ) (f : ℕ → Except ε (Option α)) :
    Except ε (Option α) :=
  retry_loop f 0 max_retries

/-- The decorated `fetch_weather_by_city` as called by clients:
`retry_on_failure(max_retries=Config.MAX_RETRIES, delay=Config.RETRY_DELAY)`
around the fetch body, with `attempts i` the HTTP outcome seen by attempt
`i`. -/
def fetch_weather_by_city_retried (attempts : ℕ → HttpOutcome) :
    Except ExtractErr (Option RawRecord) :=
  retry_on_failure Config.MAX_RETRIES Config.RETRY_DELAY
    (fun i => fetch_weather_by_city (attempts i))

/-- `src/extract.py::fetch_weather_for_cities`: iterates the city list
in order, calling the retried fetch; `fetch c` is the outcome of that
retried call for city `c` (value returned, or exception escaping after
the retry budget).  A per-city exception is caught and the city skipped;
a falsy result (`None`, or an empty JSON dict) is not appended. -/
def fetch_weather_for_cities
    (fetch : CityQuery → Except ExtractErr (Option RawRecord)) :
    List CityQuery → List RawRecord
  | [] => []
  | city :: rest =>
    match fetch city with
    | .ok (some data) =>
      if data.truthy then data :: fetch_weather_for_cities fetch rest
      else fetch_weather_for_cities fetch rest
    | .ok none => fetch_weather_for_cities fetch rest
    | .error _ => fetch_weather_for_cities fetch rest

/-- A row of the `weather.cities` table. -/
structure CityRow where
  city_id : ℤ
  city_name : String
  country_code : String
  latitude : ℚ
  longitude : ℚ
  timezone_offset : ℤ
deriving DecidableEq

/-- A row of the `weather.weather_conditions` table. -/
structure ConditionRow where
  condition_id : ℤ
  main_condition : String
  description : String
  icon_code : String
deriving DecidableEq

/-- A row of the `weather.weather_measurements` table: the two foreign
keys, the ten measurement fields and the measurement timestamp — the
exact column list of the INSERT in `load_measurement`. -/
structure MeasurementRow where
  city_id : ℤ
  condition_id : ℤ
  temperature_celsius : ℚ
  feels_like_celsius : ℚ
  temp_min_celsius : ℚ
  temp_max_celsius : ℚ
  pressure_hpa : ℤ
  humidity_percent : ℤ
  visibility_meters : Option ℤ
  wind_speed_mps : Option ℚ
  wind_direction_degrees : Option ℤ
  cloudiness_percent : Option ℤ
  measurement_timestamp : ℤ
deriving DecidableEq

/-- The relational store: the three tables plus the next values of the
two serial primary-key sequences. -/
structure DB where
  cities : List CityRow
  conditions : List ConditionRow
  measurements : List MeasurementRow
  next_city_id : ℤ
  next_condition_id : ℤ
deriving DecidableEq

/-- `src/load.py::load_city`: SELECT by the natural key
`(city_name, country_code)`; if a row is found return its id, otherwise
INSERT ... RETURNING the freshly assigned serial id.  `fault` injects a
`SQLAlchemyError` of the data layer, which the function catches,
returning `None` with the store untouched. -/
def load_city (fault : Bool) (db : DB) (city_data : City) : Option ℤ × DB :=
  if fault then (none, db)
  else
    match db.cities.find? (fun r =>
        r.city_name == city_data.city_name &&
        r.country_code == city_data.country_code) with
    | some row => (some row.city_id, db)
    | none =>
      let row : CityRow :=
        { city_id := db.next_city_id, city_name := city_data.city_name,
          country_code := city_data.country_code,
          latitude := city_data.latitude, longitude := city_data.longitude,
          timezone_offset := city_data.timezone_offset }
      (some db.next_city_id,
       { db with cities := db.cities ++ [row],
                 next_city_id := db.next_city_id + 1 })

/-- `src/load.py::load_weather_condition`: same upsert pattern keyed by
`(main_condition, description)`. -/
def load_weather_condition (fault : Bool) (db : DB) (condition_data : Condition) :
    Option ℤ × DB :=
  if fault then (none, db)
  else
    match db.conditions.find? (fun r =>
        r.main_condition == condition_data.main_condition &&
        r.description == condition_data.description) with
    | some row => (some row.condition_id, db)
    | none =>
      let row : ConditionRow :=
        { condition_id := db.next_condition_id,
          main_condition := condition_data.main_condition,
          description := condition_data.description,
          icon_code := condition_data.icon_code }
      (some db.next_condition_id,
       { db with conditions := db.conditions ++ [row],
                 next_condition_id := db.next_condition_id + 1 })

/-- The row the INSERT of `load_measurement` binds: the measurement dict
merged with the two foreign keys, after `data.pop("api_call_timestamp")`
removed the capture timestamp. -/
def rowOfMeasurement (m : Measurement) (city_id condition_id : ℤ) :
    MeasurementRow :=
  { city_id := city_id, condition_id := condition_id,
    temperature_celsius := m.temperature_celsius,
    feels_like_celsius := m.feels_like_celsius,
    temp_min_celsius := m.temp_min_celsius,
    temp_max_celsius := m.temp_max_celsius,
    pressure_hpa := m.pressure_hpa,
    humidity_percent := m.humidity_percent,
    visibility_meters := m.visibility_meters,
    wind_speed_mps := m.wind_speed_mps,
    wind_direction_degrees := m.wind_direction_degrees,
    cloudiness_percent := m.cloudiness_percent,
    measurement_timestamp := m.measurement_timestamp }

/-- `src/load.py::load_measurement`: INSERT with
`ON CONFLICT (city_id, measurement_timestamp) DO NOTHING`; returns
`true` on successful execution (including the ignored-duplicate case),
`false` on an injected data-layer fault (caught `SQLAlchemyError`). -/
def load_measurement (fault : Bool) (db : DB) (measurement_data : Measurement)
    (city_id condition_id : ℤ) : Bool × DB :=
  if fault then (false, db)
  else if db.measurements.any (fun r =>
      r.city_id == city_id &&
      r.measurement_timestamp == measurement_data.measurement_timestamp) then
    (true, db)
  else
    (true, { db with measurements :=
        db.measurements ++ [rowOfMeasurement measurement_data city_id condition_id] })

/-- Data-layer faults injected into the three statements executed by one
`load_weather_record` call. -/
structure Fault where
  city : Bool
  condition : Bool
  measurement : Bool
deriving DecidableEq

/-- `src/load.py::load_weather_record`: city upsert, then condition
upsert, then measurement insert.  After each upsert the Python guard is
`if not id:`, so both `None` and the falsy id `0` short-circuit to
`False`; otherwise the measurement-insert result is returned. -/
def load_weather_record (f : Fault) (db : DB) (t : TransformedData) : Bool × DB :=
  let c := load_city f.city db t.city
  match c.1 with
  | none => (false, c.2)
  | some city_id =>
    if city_id = 0 then (false, c.2)
    else
      let k := load_weather_condition f.condition c.2 t.condition
      match k.1 with
      | none => (false, k.2)
      | some condition_id =>
        if condition_id = 0 then (false, k.2)
        else load_measurement f.measurement k.2 t.measurement city_id condition_id

/-- The success/failure/total dict returned by `load_multiple_records`. -/
structure LoadCounts where
  success : ℕ
  failure : ℕ
  total : ℕ
deriving DecidableEq

/-- `src/load.py::load_multiple_records`: calls `load_weather_record`
once per record, counting outcomes; `faults i` are the data-layer faults
seen by the `i`-th record's load. -/
def load_multiple_records (faults : ℕ → Fault) (db : DB) :
    List TransformedData → LoadCounts × DB
  | [] => ({ success := 0, failure := 0, total := 0 }, db)
  | t :: rest =>
    let r := load_weather_record (faults 0) db t
    let rec' := load_multiple_records (fun i => faults (i + 1)) r.2 rest
    ({ success := (if r.1 then 1 else 0) + rec'.1.success,
       failure := (if r.1 then 0 else 1) + rec'.1.failure,
       total := rec'.1.total + 1 }, rec'.2)

/-- The environment of one `main.py::run_etl_pipeline` run: whether
configuration validation and the component constructors succeed, whether
`create_engine` succeeds, the result of the loader's connection test,
the outcome of the retried fetch per city, the transform wall-clock, the
initial store and the data-layer faults during loading. -/
structure PipelineEnv where
  config_ok : Bool
  loader_init_ok : Bool
  db_ok : Bool
  fetch : CityQuery → Except ExtractErr (Option RawRecord)
  now : ℤ
  db : DB
  faults : ℕ → Fault

/-- `main.py::run_etl_pipeline`: config validation and component
construction (an exception is caught by the outer handler, returning
`False`), the loader connection test, extract over `Config.CITIES`,
abort on an empty raw list, transform, abort on an empty transformed
list, then load (whose per-record counts do not affect the return
value) and `True`.  The second component is the final store state. -/
def run_etl_pipeline (env : PipelineEnv) : Bool × DB :=
  if !env.config_ok then (false, env.db)
  else if !env.loader_init_ok then (false, env.db)
  else if !env.db_ok then (false, env.db)
  else
    let raw_data_list := fetch_weather_for_cities env.fetch Config.CITIES
    if raw_data_list.isEmpty then (false, env.db)
    else
      let transformed_data_list := transform_multiple_records env.now raw_data_list
      if transformed_data_list.isEmpty then (false, env.db)
      else
        let result := load_multiple_records env.faults env.db transformed_data_list
        (true, result.2)

/-- The `main` block of the sample raw record of `tests/conftest.py`. -/
def sampleMain : MainBlock :=
  { temp := some 15.5, feels_like := some 14.2, temp_min := some 13,
    temp_max := some 17, pressure := some 1013, humidity := some 65 }

/-- The sample raw London record of `tests/conftest.py`. -/
def sampleRaw : RawRecord :=
  { coord := some { lat := some 51.5085, lon := some (-0.1257) },
    weather := some [{ main := some "Clear", description := some "clear sky",
                       icon := some "01d" }],
    main := some sampleMain,
    visibility := some 10000,
    wind := some { speed := some 3.5, deg := some 180 },
    clouds := some { all := some 20 },
    dt := some 1609459200,
    sys := some { country := some "GB" },
    timezone := some 0,
    name := some "London" }

/-- The sample record with its humidity replaced by the out-of-range
value 150; every other field is valid. -/
def badHumidityRaw : RawRecord :=
  { sampleRaw with main := some { sampleMain with humidity := some 150 } }

/-- The value `transform_single_record` produces for `badHumidityRaw`
at wall-clock 0. -/
def tBad : TransformedData :=
  { city := { city_name := "London", country_code := "GB",
              latitude := 51.5085, longitude := -0.1257,
              timezone_offset := 0 },
    condition := { main_condition := "Clear", description := "clear sky",
                   icon_code := "01d" },
    measurement :=
      { temperature_celsius := round2 15.5,
        feels_like_celsius := round2 14.2,
        temp_min_celsius := round2 13,
        temp_max_celsius := round2 17,
        pressure_hpa := 1013,
        humidity_percent := 150,
        visibility_meters := some 10000,
        wind_speed_mps := some 3.5,
        wind_direction_degrees := some 180,
        cloudiness_percent := some 20,
        measurement_timestamp := 1609459200,
        api_call_timestamp := 0 } }

/-- A transformed dict with full sections, the given temperature and
humidity, and otherwise fixed valid fields — the shape the validation
gate tests exercise. -/
def mkDict (t : ℚ) (h : ℤ) : TransformedDict :=
  { city := some { city_name := "London", country_code := "GB",
                   latitude := 51.5085, longitude := -0.1257,
                   timezone_offset := 0 },
    condition := some { main_condition := "Clear", description := "clear sky",
                        icon_code := "01d" },
    measurement := some
      { temperature_celsius := t,
        feels_like_celsius := 14.2,
        temp_min_celsius := 13,
        temp_max_celsius := 17,
        pressure_hpa := 1013,
        humidity_percent := h,
        visibility_meters := some 10000,
        wind_speed_mps := some 3.5,
        wind_direction_degrees := some 180,
        cloudiness_percent := some 20,
        measurement_timestamp := 1609459200,
        api_call_timestamp := 0 } }

/-- The record with the three optional groups (`visibility`, `wind`,
`clouds`) removed. -/
def RawRecord.stripOptional (raw : RawRecord) : RawRecord :=
  { raw with visibility := none, wind := none, clouds := none }

/-- Well-formedness of the store: serial ids are positive (PostgreSQL
serial sequences start at 1), as are the next sequence values. -/
def DB.WF (db : DB) : Prop :=
  (∀ r ∈ db.cities, 1 ≤ r.city_id) ∧ 1 ≤ db.next_city_id ∧
  (∀ r ∈ db.conditions, 1 ≤ r.condition_id) ∧ 1 ≤ db.next_condition_id

/-- An empty store with fresh serial sequences. -/
def emptyDB : DB :=
  { cities := [], conditions := [], measurements := [],
    next_city_id := 1, next_condition_id := 1 }

/-- No data-layer faults. -/
def noFault : ℕ → Fault := fun _ => { city := false, condition := false, measurement := false }

/-- A fetch environment in which only the London query succeeds,
returning the bad-humidity record; every other city times out after its
retries. -/
def onlyLondonFetch : CityQuery → Except ExtractErr (Option RawRecord) :=
  fun c =>
    if c = { name := some "London", country := some "GB" } then
      .ok (some badHumidityRaw)
    else .error .timeout

/-- A complete faultless pipeline environment whose only fetched record
is the bad-humidity one. -/
def cexEnv : PipelineEnv :=
  { config_ok := true, loader_init_ok := true, db_ok := true,
    fetch := onlyLondonFetch, now := 0, db := emptyDB, faults := noFault }

/-- The sample record with its required `coord` key removed. -/
def noCoordRaw : RawRecord := { sampleRaw with coord := none }

/-- The sample record with an out-of-range raw temperature of 100 °C. -/
def hotRaw : RawRecord :=
  { sampleRaw with main := some { sampleMain with temp := some 100 } }

/-- The value `transform_single_record` produces for `sampleRaw` at
wall-clock 0. -/
def tSample : TransformedData :=
  { city := { city_name := "London", country_code := "GB",
              latitude := 51.5085, longitude := -0.1257,
              timezone_offset := 0 },
    condition := { main_condition := "Clear", description := "clear sky",
                   icon_code := "01d" },
    measurement :=
      { temperature_celsius := round2 15.5,
        feels_like_celsius := round2 14.2,
        temp_min_celsius := round2 13,
        temp_max_celsius := round2 17,
        pressure_hpa := 1013,
        humidity_percent := 65,
        visibility_meters := some 10000,
        wind_speed_mps := some 3.5,
        wind_direction_degrees := some 180,
        cloudiness_percent := some 20,
        measurement_timestamp := 1609459200,
        api_call_timestamp := 0 } }

/-- First weather-condition entry of the two-entry sample. -/
def condEntry1 : WeatherEntry :=
  { main := some "Rain", description := some "light rain", icon := some "10d" }

/-- Second weather-condition entry of the two-entry sample. -/
def condEntry2 : WeatherEntry :=
  { main := some "Clouds", description := some "few clouds", icon := some "02d" }

/-- The sample record with a two-entry weather-condition list. -/
def twoCondRaw : RawRecord :=
  { sampleRaw with weather := some [condEntry1, condEntry2] }

/-- Transform result for `twoCondRaw` at wall-clock 0. -/
def tTwo : TransformedData :=
  { tSample with condition := { main_condition := "Rain",
                                description := "light rain",
                                icon_code := "10d" } }

/-- Transform result for `sampleRaw.stripOptional` at wall-clock 0. -/
def tStrip : TransformedData :=
  { tSample with measurement :=
      { tSample.measurement with
        visibility_meters := none,
        wind_speed_mps := none,
        wind_direction_degrees := none,
        cloudiness_percent := none } }

/-- A concrete city for the upsert witnesses. -/
def cityA : City :=
  { city_name := "Oslo", country_code := "NO", latitude := 59,
    longitude := 10, timezone_offset := 3600 }

/-- A store already holding the bad-humidity measurement for city 1. -/
def dupDB : DB :=
  { emptyDB with measurements := [rowOfMeasurement tBad.measurement 1 1] }

/-- A transformed dict with the `city` section missing. -/
def noCityDict : TransformedDict := { mkDict 15 65 with city := none }

/-- City queries for the partial-batch witness. -/
def queryA : CityQuery := { name := some "A", country := none }

def queryB : CityQuery := { name := some "B", country := none }

def queryC : CityQuery := { name := some "C", country := none }

/-- A retried-fetch environment in which exactly the `queryB` city fails
(after its retries) and every other city returns the sample record. -/
def fetch3 : CityQuery → Except ExtractErr (Option RawRecord) :=
  fun c => if c = queryB then .error .timeout else .ok (some sampleRaw)

/-- Attempt outcomes that always time out. -/
def allTimeout : ℕ → Except ExtractErr (Option RawRecord) :=
  fun _ => .error .timeout

/-- Attempt outcomes that always return `None` without raising. -/
def alwaysNull : ℕ → Except ExtractErr (Option RawRecord) :=
  fun _ => .ok none

/-- C10: `load_measurement` never persists the capture timestamp: the
value of `api_call_timestamp` (popped before the INSERT executes) has no
effect on the result or on the stored row, which holds exactly the two
foreign keys, the ten measurement fields and the measurement timestamp
(the `MeasurementRow` columns). -/
theorem measurement_insert_ignores_api_call_timestamp
    (fault : Bool) (db : DB) (m : Measurement) (city_id condition_id ts : ℤ) :
    load_measurement fault db { m with api_call_timestamp := ts }
        city_id condition_id =
      load_measurement fault db m city_id condition_id ∧
    rowOfMeasurement { m with api_call_timestamp := ts } city_id condition_id =
      rowOfMeasurement m city_id condition_id :=
  ⟨rfl, rfl⟩

/-- C7: `validate_transformed_data` fails when a section is missing and
is boundary-inclusive on temperature `[-100, 60]` and humidity
`[0, 100]`: humidity 150 and -10 fail, 65 passes; temperature -99 and 59
pass; -100.0001 and 60.0001 fail. -/
theorem validate_gate_boundary_semantics :
    (∀ d : TransformedDict,
      d.city = none ∨ d.condition = none ∨ d.measurement = none →
      validate_transformed_data d = false) ∧
    (∀ (t : ℚ) (h : ℤ),
      validate_transformed_data (mkDict t h) = true ↔
        -100 ≤ t ∧ t ≤ 60 ∧ 0 ≤ h ∧ h ≤ 100) ∧
    validate_transformed_data (mkDict 15 150) = false ∧
    validate_transformed_data (mkDict 15 (-10)) = false ∧
    validate_transformed_data (mkDict 15 65) = true ∧
    validate_transformed_data (mkDict (-99) 65) = true ∧
    validate_transformed_data (mkDict 59 65) = true ∧
    validate_transformed_data (mkDict (-100.0001) 65) = false ∧
    validate_transformed_data (mkDict 60.0001 65) = false := by
  refine ⟨?_, ?_, ?_, ?_, ?_, ?_, ?_, ?_, ?_⟩
  · rintro ⟨c, k, m⟩ hd
    rcases c with _ | c <;> rcases k with _ | k <;> rcases m with _ | m <;>
      simp_all [validate_transformed_data]
  · intro t h
    simp only [validate_transformed_data, mkDict, Bool.or_eq_true,
      decide_eq_true_eq]
    split_ifs with h1 h2
    · simp only [false_iff]
      rintro ⟨ha, hb, _, _⟩
      rcases h1 with h1 | h1 <;> linarith
    · simp only [false_iff]
      rintro ⟨_, _, hc, hd⟩
      rcases h2 with h2 | h2 <;> omega
    · push_neg at h1 h2
      simp only [true_iff]
      exact ⟨by linarith [h1.1], by linarith [h1.2], by omega, by omega⟩
  · norm_num [validate_transformed_data, mkDict]
  · norm_num [validate_transformed_data, mkDict]
  · norm_num [validate_transformed_data, mkDict]
  · norm_num [validate_transformed_data, mkDict]
  · norm_num [validate_transformed_data, mkDict]
  · norm_num [validate_transformed_data, mkDict]
  · norm_num [validate_transformed_data, mkDict]

/-- Witness for C7 at a concrete input with the `city` section missing. -/
theorem validate_gate_boundary_semantics_witness :
    validate_transformed_data noCityDict = false :=
  validate_gate_boundary_semantics.1 noCityDict (Or.inl rfl)

/-- C4: a raw record missing `coord`, `main` or `name`, or whose raw
`main.temp` lies outside `[-100, 60]`, transforms to `None` (the
function is total, so no exception reaches the caller). -/
theorem transform_rejects_missing_fields_and_bad_temp (now : ℤ) (raw : RawRecord) :
    ((raw.coord = none ∨ raw.main = none ∨ raw.name = none) →
      transform_single_record now raw = none) ∧
    (∀ mb t, raw.main = some mb → mb.temp = some t → (t < -100 ∨ 60 < t) →
      transform_single_record now raw = none) := by
  constructor
  · rintro (h | h | h) <;> simp [transform_single_record, validate_weather_data, h]
  · intro mb t hmb ht hout
    have ht0 : ¬t = 0 := by
      rcases hout with h | h <;> intro h0 <;> rw [h0] at h <;> norm_num at h
    have hv : validate_weather_data raw = false := by
      rcases hout with h | h <;>
        simp [validate_weather_data, hmb, ht, ht0, h]
    simp [transform_single_record, hv]

/-- Witness for C4: missing coordinates and a 100 °C temperature are both
rejected. -/
theorem transform_rejects_missing_fields_and_bad_temp_witness :
    transform_single_record 0 noCoordRaw = none ∧
    transform_single_record 0 hotRaw = none :=
  ⟨(transform_rejects_missing_fields_and_bad_temp 0 noCoordRaw).1 (Or.inl rfl),
   (transform_rejects_missing_fields_and_bad_temp 0 hotRaw).2 _ 100 rfl rfl
     (Or.inr (by norm_num))⟩

/-- Evaluation of the transformer on the bad-humidity record. -/
theorem transform_badHumidityRaw_eq :
    transform_single_record 0 badHumidityRaw = some tBad := by
  norm_num [transform_single_record, validate_weather_data, map_city_data,
    map_condition_data, map_measurement_data, badHumidityRaw, sampleRaw,
    sampleMain, tBad, Option.bind]

/-- Counterexample to C1: the record with humidity 150 (all other fields
valid) is NOT rejected before load — it survives `transform_multiple_records`
and a faultless pipeline run hands it to the loader, which stores a
measurement row with humidity 150. -/
theorem humidity_outside_range_reaches_loader_cex :
    (transform_multiple_records 0 [badHumidityRaw]).map
        (fun t => t.measurement.humidity_percent) = [150] ∧
    (run_etl_pipeline cexEnv).1 = true ∧
    (run_etl_pipeline cexEnv).2.measurements.map MeasurementRow.humidity_percent
      = [150] := by
  have h3 : transform_multiple_records 0 [badHumidityRaw] = [tBad] := by
    simp [transform_multiple_records, transform_badHumidityRaw_eq]
  have h1 : fetch_weather_for_cities onlyLondonFetch Config.CITIES
      = [badHumidityRaw] := rfl
  have h4 : ((load_multiple_records noFault emptyDB [tBad]).2.measurements.map
      MeasurementRow.humidity_percent) = [150] := rfl
  refine ⟨by simp [h3, tBad], ?_, ?_⟩
  · simp [run_etl_pipeline, cexEnv, h1, h3]
  · simp only [run_etl_pipeline, cexEnv, h1, h3]
    norm_num
    exact h4

/-- The success of `map_measurement_data` and the produced humidity as a
function of the raw `main.humidity`. -/
theorem map_measurement_data_humidity (now : ℤ) (raw : RawRecord)
    (m : Measurement) (h : map_measurement_data now raw = some m) :
    raw.main.bind MainBlock.humidity = some m.humidity_percent := by
  simp only [map_measurement_data, Option.bind_eq_some] at h
  obtain ⟨md, hmd, t, ht, fl, hfl, tn, htn, tx, htx, p, hp, hu, hhu, d, hd, hm⟩ := h
  rw [hmd, Option.some_bind, hhu]
  cases hm
  rfl

/-- Decomposition of a successful transform into its three mappers. -/
theorem transform_eq_some_iff (now : ℤ) (raw : RawRecord) (t : TransformedData) :
    transform_single_record now raw = some t ↔
      validate_weather_data raw = true ∧
      ∃ c k m, map_city_data raw = some c ∧ map_condition_data raw = some k ∧
        map_measurement_data now raw = some m ∧
        t = { city := c, condition := k, measurement := m } := by
  rw [transform_single_record]
  cases hv : validate_weather_data raw
  · simp
  · simp only [if_true, hv, true_and, Option.bind_eq_some]
    constructor
    · rintro ⟨c, hc, k, hk, m, hm, heq⟩
      cases heq
      exact ⟨c, k, m, hc, hk, hm, rfl⟩
    · rintro ⟨c, k, m, hc, hk, hm, rfl⟩
      exact ⟨c, hc, k, hk, m, hm, rfl⟩

/-- A transform succeeds exactly when validation and the three mappers
succeed. -/
theorem transform_isSome_eq (now : ℤ) (raw : RawRecord) :
    (transform_single_record now raw).isSome =
      (validate_weather_data raw && (map_city_data raw).isSome &&
       (map_condition_data raw).isSome &&
       (map_measurement_data now raw).isSome) := by
  rw [transform_single_record]
  cases hv : validate_weather_data raw
  · simp
  · cases hc : map_city_data raw <;> cases hk : map_condition_data raw <;>
      cases hm : map_measurement_data now raw <;> simp [hc, hk, hm]

/-- The success of the measurement mapper does not depend on the
humidity value. -/
theorem map_measurement_isSome_humidity (now : ℤ) (raw : RawRecord)
    (m : MainBlock) (h h' : ℤ) :
    (map_measurement_data now
      { raw with main := some { m with humidity := some h } }).isSome =
    (map_measurement_data now
      { raw with main := some { m with humidity := some h' } }).isSome := by
  simp only [map_measurement_data]
  cases m.temp <;> cases m.feels_like <;> cases m.temp_min <;>
    cases m.temp_max <;> cases m.pressure <;> cases raw.dt <;>
    simp only [Option.some_bind, Option.none_bind, Option.isSome_some,
      Option.isSome_none]

/-- C1 (amended): out-of-range humidity is NOT rejected before load —
the transformer never filters on humidity.  A successfully transformed
record keeps its raw humidity verbatim and stays in the
`transform_multiple_records` output (which the pipeline hands to the
loader wholesale), and transform success is independent of the humidity
value. -/
theorem humidity_not_filtered_by_transform :
    (∀ (now : ℤ) (raw : RawRecord) (t : TransformedData) (h : ℤ),
      transform_single_record now raw = some t →
      raw.main.bind MainBlock.humidity = some h →
      (h < 0 ∨ 100 < h) →
      t.measurement.humidity_percent = h ∧
      transform_multiple_records now [raw] = [t]) ∧
    (∀ (now : ℤ) (raw : RawRecord) (m : MainBlock) (h h' : ℤ),
      (transform_single_record now
        { raw with main := some { m with humidity := some h } }).isSome =
      (transform_single_record now
        { raw with main := some { m with humidity := some h' } }).isSome) := by
  constructor
  · intro now raw t h htr hh _
    refine ⟨?_, by simp [transform_multiple_records, htr]⟩
    obtain ⟨-, c, k, m, -, -, hm, rfl⟩ := (transform_eq_some_iff now raw t).1 htr
    have hmh := map_measurement_data_humidity now raw m hm
    rw [hh] at hmh
    exact (Option.some_inj.mp hmh).symm
  · intro now raw m h h'
    rw [transform_isSome_eq, transform_isSome_eq]
    have h1 : validate_weather_data
        { raw with main := some { m with humidity := some h } } =
        validate_weather_data
        { raw with main := some { m with humidity := some h' } } := rfl
    have h2 : map_city_data
        { raw with main := some { m with humidity := some h } } =
        map_city_data
        { raw with main := some { m with humidity := some h' } } := rfl
    have h3 : map_condition_data
        { raw with main := some { m with humidity := some h } } =
        map_condition_data
        { raw with main := some { m with humidity := some h' } } := rfl
    rw [h1, h2, h3, map_measurement_isSome_humidity]

/-- Witness for the amended C1 at the concrete humidity-150 record. -/
theorem humidity_not_filtered_by_transform_witness :
    tBad.measurement.humidity_percent = 150 ∧
    transform_multiple_records 0 [badHumidityRaw] = [tBad] ∧
    (transform_single_record 0 badHumidityRaw).isSome =
      (transform_single_record 0 sampleRaw).isSome := by
  have h1 := humidity_not_filtered_by_transform.1 0 badHumidityRaw tBad 150
    transform_badHumidityRaw_eq rfl (Or.inr (by norm_num))
  have h2 := humidity_not_filtered_by_transform.2 0 sampleRaw sampleMain 150 65
  exact ⟨h1.1, h1.2, h2⟩

/-- Removing the optional groups does not change whether the measurement
mapper succeeds. -/
theorem map_measurement_data_strip_isSome (now : ℤ) (raw : RawRecord) :
    (map_measurement_data now raw.stripOptional).isSome =
      (map_measurement_data now raw).isSome := by
  simp only [map_measurement_data, RawRecord.stripOptional]
  cases raw.main with
  | none => rfl
  | some md =>
    simp only [Option.some_bind]
    cases md.temp <;> cases md.feels_like <;> cases md.temp_min <;>
      cases md.temp_max <;> cases md.pressure <;> cases md.humidity <;>
      cases raw.dt <;>
      simp only [Option.some_bind, Option.none_bind, Option.isSome_some,
        Option.isSome_none]

/-- C9: the condition sub-record is mapped from the first entry of a
multi-entry weather list, and a record with the optional `visibility`,
`wind`, `clouds` groups missing still transforms (success is unchanged),
with the corresponding measurement fields `None` rather than a numeric
default. -/
theorem transform_first_condition_and_null_optionals (now : ℤ) (raw : RawRecord) :
    (∀ t e1 e2 rest, transform_single_record now raw = some t →
      raw.weather = some (e1 :: e2 :: rest) →
      ∃ cm cd ci, e1.main = some cm ∧ e1.description = some cd ∧
        e1.icon = some ci ∧
        t.condition = { main_condition := cm, description := cd,
                        icon_code := ci }) ∧
    (transform_single_record now raw.stripOptional).isSome =
      (transform_single_record now raw).isSome ∧
    (∀ t, transform_single_record now raw.stripOptional = some t →
      t.measurement.visibility_meters = none ∧
      t.measurement.wind_speed_mps = none ∧
      t.measurement.wind_direction_degrees = none ∧
      t.measurement.cloudiness_percent = none) := by
  refine ⟨?_, ?_, ?_⟩
  · intro t e1 e2 rest htr hw
    obtain ⟨-, c, k, m, -, hk, -, rfl⟩ := (transform_eq_some_iff now raw t).1 htr
    simp only [map_condition_data, hw, Option.some_bind, List.head?_cons,
      Option.bind_eq_some] at hk
    obtain ⟨cm, hcm, cd, hcd, ci, hci, hkk⟩ := hk
    cases hkk
    exact ⟨cm, cd, ci, hcm, hcd, hci, rfl⟩
  · rw [transform_isSome_eq, transform_isSome_eq]
    have h1 : validate_weather_data raw.stripOptional =
        validate_weather_data raw := rfl
    have h2 : map_city_data raw.stripOptional = map_city_data raw := rfl
    have h3 : map_condition_data raw.stripOptional = map_condition_data raw := rfl
    rw [h1, h2, h3, map_measurement_data_strip_isSome]
  · intro t htr
    obtain ⟨-, c, k, m, -, -, hm, rfl⟩ :=
      (transform_eq_some_iff now raw.stripOptional t).1 htr
    simp only [map_measurement_data, RawRecord.stripOptional,
      Option.bind_eq_some] at hm
    obtain ⟨md, -, t1, -, t2, -, t3, -, t4, -, p, -, hu, -, d, -, hmEq⟩ := hm
    cases hmEq
    exact ⟨rfl, rfl, rfl, rfl⟩

/-- Evaluation of the transformer on the two-condition record. -/
theorem transform_twoCondRaw_eq :
    transform_single_record 0 twoCondRaw = some tTwo := by
  norm_num [transform_single_record, validate_weather_data, map_city_data,
    map_condition_data, map_measurement_data, twoCondRaw, sampleRaw,
    sampleMain, condEntry1, condEntry2, tTwo, tSample, Option.bind]

/-- Evaluation of the transformer on the sample with optional groups
removed. -/
theorem transform_strip_sample_eq :
    transform_single_record 0 sampleRaw.stripOptional = some tStrip := by
  norm_num [transform_single_record, validate_weather_data, map_city_data,
    map_condition_data, map_measurement_data, RawRecord.stripOptional,
    sampleRaw, sampleMain, tStrip, tSample, Option.bind]

/-- Witness for C9 at the concrete two-entry and stripped records. -/
theorem transform_first_condition_and_null_optionals_witness :
    (∃ cm cd ci, condEntry1.main = some cm ∧
      condEntry1.description = some cd ∧ condEntry1.icon = some ci ∧
      tTwo.condition = { main_condition := cm, description := cd,
                         icon_code := ci }) ∧
    (tStrip.measurement.visibility_meters = none ∧
     tStrip.measurement.wind_speed_mps = none ∧
     tStrip.measurement.wind_direction_degrees = none ∧
     tStrip.measurement.cloudiness_percent = none) := by
  have h1 := (transform_first_condition_and_null_optionals 0 twoCondRaw).1
    tTwo condEntry1 condEntry2 [] transform_twoCondRaw_eq rfl
  have h2 := (transform_first_condition_and_null_optionals 0 sampleRaw).2.2
    tStrip transform_strip_sample_eq
  exact ⟨h1, h2⟩

/-- C2: upserting the same city twice returns the same identifier both
times, leaves the store unchanged after the first call, and creates
exactly one row when the natural key was absent; inserting a measurement
whose (city_id, measurement_timestamp) already exists is a no-op that
still returns `true`. -/
theorem upsert_city_and_measurement_insert_idempotent
    (db : DB) (c : City) (m : Measurement) (city_id condition_id : ℤ) :
    (∃ id, (load_city false db c).1 = some id ∧
      (load_city false (load_city false db c).2 c).1 = some id) ∧
    (load_city false (load_city false db c).2 c).2 = (load_city false db c).2 ∧
    (db.cities.countP (fun r => r.city_name == c.city_name &&
        r.country_code == c.country_code) = 0 →
      (load_city false db c).2.cities.countP (fun r =>
        r.city_name == c.city_name && r.country_code == c.country_code) = 1) ∧
    (db.measurements.any (fun r => r.city_id == city_id &&
        r.measurement_timestamp == m.measurement_timestamp) = true →
      load_measurement false db m city_id condition_id = (true, db)) := by
  rcases hf : db.cities.find? (fun r => r.city_name == c.city_name &&
      r.country_code == c.country_code) with _ | row
  · refine ⟨⟨db.next_city_id, ?_, ?_⟩, ?_, ?_, ?_⟩
    · simp [load_city, hf]
    · simp [load_city, hf, List.find?_append]
    · simp [load_city, hf, List.find?_append]
    · intro h0
      simp [load_city, hf, List.countP_append, h0]
    · intro hdup
      simp [load_measurement, hdup]
  · have hprow := List.find?_some hf
    have hmem := List.mem_of_find?_eq_some hf
    refine ⟨⟨row.city_id, ?_, ?_⟩, ?_, ?_, ?_⟩
    · simp [load_city, hf]
    · simp [load_city, hf]
    · simp [load_city, hf]
    · intro h0
      rw [List.countP_eq_zero] at h0
      exact absurd hprow (h0 _ hmem)
    · intro hdup
      simp [load_measurement, hdup]

/-- Witness for C2 on an empty store and on a store already holding the
measurement. -/
theorem upsert_city_and_measurement_insert_idempotent_witness :
    (∃ id, (load_city false emptyDB cityA).1 = some id ∧
      (load_city false (load_city false emptyDB cityA).2 cityA).1 = some id) ∧
    (load_city false emptyDB cityA).2.cities.countP (fun r =>
      r.city_name == cityA.city_name &&
      r.country_code == cityA.country_code) = 1 ∧
    load_measurement false dupDB tBad.measurement 1 1 = (true, dupDB) :=
  ⟨(upsert_city_and_measurement_insert_idempotent emptyDB cityA
      tBad.measurement 1 1).1,
   (upsert_city_and_measurement_insert_idempotent emptyDB cityA
      tBad.measurement 1 1).2.2.1 rfl,
   (upsert_city_and_measurement_insert_idempotent dupDB cityA
      tBad.measurement 1 1).2.2.2 rfl⟩

/-- C6: `load_weather_record` short-circuits to `false` when the city or
condition upsert fails to produce an identifier (leaving the store as it
was after the failing step) and otherwise returns the measurement-insert
result; `load_multiple_records` tallies one outcome per record, with
success + failure = total = input length, for every fault schedule. -/
theorem load_one_shortcircuits_and_load_many_counts :
    (∀ (f : Fault) (db : DB) (t : TransformedData), db.WF →
      ((f.city = true → load_weather_record f db t = (false, db)) ∧
       (f.city = false → f.condition = true →
         load_weather_record f db t = (false, (load_city false db t.city).2)) ∧
       (f.city = false → f.condition = false →
         ∃ cid condid,
           (load_city false db t.city).1 = some cid ∧
           (load_weather_condition false (load_city false db t.city).2
             t.condition).1 = some condid ∧
           load_weather_record f db t =
             load_measurement f.measurement
               (load_weather_condition false (load_city false db t.city).2
                 t.condition).2 t.measurement cid condid))) ∧
    (∀ (faults : ℕ → Fault) (db : DB) (ts : List TransformedData),
      (load_multiple_records faults db ts).1.success +
        (load_multiple_records faults db ts).1.failure =
        (load_multiple_records faults db ts).1.total ∧
      (load_multiple_records faults db ts).1.total = ts.length) := by
  constructor
  · intro f db t hwf
    obtain ⟨hwc, hnc, hwk, hnk⟩ := hwf
    have hcity : ∃ cid, (load_city false db t.city).1 = some cid ∧ 1 ≤ cid := by
      rcases hf : db.cities.find? (fun r => r.city_name == t.city.city_name &&
          r.country_code == t.city.country_code) with _ | row
      · exact ⟨db.next_city_id, by simp [load_city, hf], hnc⟩
      · exact ⟨row.city_id, by simp [load_city, hf],
          hwc _ (List.mem_of_find?_eq_some hf)⟩
    obtain ⟨cid, hcid, hcpos⟩ := hcity
    have hkeep : (load_city false db t.city).2.conditions = db.conditions ∧
        (load_city false db t.city).2.next_condition_id = db.next_condition_id := by
      rcases hf : db.cities.find? (fun r => r.city_name == t.city.city_name &&
          r.country_code == t.city.country_code) with _ | row <;>
        simp [load_city, hf]
    have hcond : ∃ condid, (load_weather_condition false
        (load_city false db t.city).2 t.condition).1 = some condid ∧
        1 ≤ condid := by
      rcases hg : (load_city false db t.city).2.conditions.find?
          (fun r => r.main_condition == t.condition.main_condition &&
            r.description == t.condition.description) with _ | row
      · refine ⟨(load_city false db t.city).2.next_condition_id,
          by simp [load_weather_condition, hg], ?_⟩
        rw [hkeep.2]
        exact hnk
      · refine ⟨row.condition_id, by simp [load_weather_condition, hg], ?_⟩
        apply hwk
        rw [← hkeep.1]
        exact List.mem_of_find?_eq_some hg
    obtain ⟨condid, hcondid, hkpos⟩ := hcond
    refine ⟨?_, ?_, ?_⟩
    · intro hc
      simp [load_weather_record, load_city, hc]
    · intro hc hk
      rw [load_weather_record, hc, hcid]
      simp only
      rw [if_neg (by omega)]
      simp [load_weather_condition, hk]
    · intro hc hk
      refine ⟨cid, condid, hcid, hcondid, ?_⟩
      rw [load_weather_record, hc, hk, hcid]
      simp only
      rw [if_neg (by omega), hcondid]
      simp only
      rw [if_neg (by omega)]
  · intro faults db ts
    induction ts generalizing faults db with
    | nil => simp [load_multiple_records]
    | cons t rest ih =>
      obtain ⟨ih1, ih2⟩ := ih (fun i => faults (i + 1))
        (load_weather_record (faults 0) db t).2
      simp only [load_multiple_records, List.length_cons]
      cases hr : (load_weather_record (faults 0) db t).1 <;>
        simp [hr, ih1, ih2] <;> omega

/-- Witness for C6: a failing city upsert on the empty store, and counts
on a singleton batch. -/
theorem load_one_shortcircuits_and_load_many_counts_witness :
    load_weather_record { city := true, condition := false, measurement := false }
      emptyDB tBad = (false, emptyDB) ∧
    (load_multiple_records noFault emptyDB [tBad]).1.total = 1 := by
  have hwf : emptyDB.WF :=
    ⟨by simp [emptyDB], by simp [emptyDB], by simp [emptyDB], by simp [emptyDB]⟩
  exact ⟨(load_one_shortcircuits_and_load_many_counts.1 _ emptyDB tBad hwf).1 rfl,
    (load_one_shortcircuits_and_load_many_counts.2 noFault emptyDB [tBad]).2⟩

/-- A wrapped call that returns on its first attempt ends the retry loop
at once with that value. -/
theorem retry_loop_first_ok (f : ℕ → Except ε (Option α)) (a r : ℕ)
    (v : Option α) (h1 : 1 ≤ r) (h : f a = .ok v) :
    retry_loop f a r = .ok v := by
  cases r with
  | zero => omega
  | succ n => simp [retry_loop, h]

/-- When every attempt raises, the retry loop re-raises the exception of
the last attempt. -/
theorem retry_loop_all_errors (f : ℕ → Except ε (Option α)) (e : ℕ → ε) :
    ∀ (r a : ℕ), 1 ≤ r → (∀ i, i < r → f (a + i) = .error (e (a + i))) →
    retry_loop f a r = .error (e (a + r - 1)) := by
  intro r
  induction r with
  | zero => intro a h; exact absurd h (by omega)
  | succ n ih =>
    intro a h1 hall
    have hfa : f a = .error (e a) := by simpa using hall 0 (by omega)
    cases n with
    | zero => simp [retry_loop, hfa]
    | succ m =>
      have hr : retry_loop f (a + 1) (m + 1) =
          .error (e (a + 1 + (m + 1) - 1)) := by
        apply ih
        · omega
        · intro i hi
          have hh := hall (i + 1) (by omega)
          have harith : a + (i + 1) = a + 1 + i := by omega
          rwa [harith] at hh
      have harith2 : a + 1 + (m + 1) - 1 = a + (m + 1 + 1) - 1 := by omega
      rw [show retry_loop f a (m + 1 + 1) = (match f a with
        | .ok v => Except.ok v
        | .error err =>
          if m + 1 = 0 then Except.error err
          else retry_loop f (a + 1) (m + 1)) from rfl, hfa]
      show (if m + 1 = 0 then Except.error (e a)
        else retry_loop f (a + 1) (m + 1)) =
          Except.error (e (a + (m + 1 + 1) - 1))
      rw [if_neg (Nat.succ_ne_zero m), hr, harith2]

/-- C3: the retry wrapper re-invokes the wrapped call only on an
exception — a returned value (in particular the `None` produced for HTTP
401/404) is terminal and independent of later attempts — and when every
attempt raises it re-raises the last exception; the configured default
budget is 3 attempts. -/
theorem retry_only_on_exception_and_reraise_last :
    (∀ (max_retries delay : ℕ)
       (f g : ℕ → Except ExtractErr (Option RawRecord)) (v : Option RawRecord),
      1 ≤ max_retries → f 0 = .ok v → g 0 = f 0 →
      retry_on_failure max_retries delay f = .ok v ∧
      retry_on_failure max_retries delay g = .ok v) ∧
    (∀ s, fetch_weather_by_city (.httpError s) = .ok none) ∧
    fetch_weather_by_city .timeout = .error .timeout ∧
    (∀ (max_retries delay : ℕ)
       (f : ℕ → Except ExtractErr (Option RawRecord)) (e : ℕ → ExtractErr),
      1 ≤ max_retries → (∀ i, i < max_retries → f i = .error (e i)) →
      retry_on_failure max_retries delay f = .error (e (max_retries - 1))) ∧
    Config.MAX_RETRIES = 3 := by
  refine ⟨?_, fun s => rfl, rfl, ?_, rfl⟩
  · intro mr d f g v h1 hf hg
    exact ⟨retry_loop_first_ok f 0 mr v h1 hf,
      retry_loop_first_ok g 0 mr v h1 (hg.trans hf)⟩
  · intro mr d f e h1 hall
    have hh := retry_loop_all_errors f e mr 0 h1 (by
      intro i hi
      simpa using hall i hi)
    simpa using hh

/-- Witness for C3: three timeouts re-raise the timeout; a first-attempt
null is returned unchanged. -/
theorem retry_only_on_exception_and_reraise_last_witness :
    retry_on_failure 3 5 allTimeout = .error .timeout ∧
    retry_on_failure 3 5 alwaysNull = .ok none := by
  refine ⟨?_, ?_⟩
  · have hh := retry_only_on_exception_and_reraise_last.2.2.2.1 3 5 allTimeout
      (fun _ => .timeout) (by omega) (fun i _ => rfl)
    simpa using hh
  · exact (retry_only_on_exception_and_reraise_last.1 3 5 alwaysNull alwaysNull
      none (by omega) rfl rfl).1

/-- C5: `fetch_weather_for_cities` returns exactly the (truthy) records
of the cities whose retried fetch succeeded with a non-null result, in
input order; a city whose fetch raised (exhausted retries) or returned
null is skipped without aborting the batch. -/
theorem fetch_many_returns_successes_in_order
    (fetch : CityQuery → Except ExtractErr (Option RawRecord))
    (cities : List CityQuery)
    (htruthy : ∀ c d, fetch c = .ok (some d) → d.truthy = true) :
    fetch_weather_for_cities fetch cities =
      cities.filterMap (fun c =>
        match fetch c with
        | .ok (some d) => some d
        | .ok none => none
        | .error _ => none) := by
  induction cities with
  | nil => rfl
  | cons c rest ih =>
    rw [fetch_weather_for_cities, List.filterMap_cons]
    cases hc : fetch c with
    | error err => simp [hc, ih]
    | ok v =>
      cases v with
      | none => simp [hc, ih]
      | some d => simp [hc, htruthy c d hc, ih]

/-- Witness for C5: three cities of which exactly the middle one fails
yield the two surviving records in order. -/
theorem fetch_many_returns_successes_in_order_witness :
    fetch_weather_for_cities fetch3 [queryA, queryB, queryC] =
      [sampleRaw, sampleRaw] ∧
    (fetch_weather_for_cities fetch3 [queryA, queryB, queryC]).length = 2 := by
  have ht : ∀ c d, fetch3 c = .ok (some d) → d.truthy = true := by
    intro c d hc
    simp only [fetch3] at hc
    split at hc
    · exact absurd hc (by simp)
    · injection hc with h1
      injection h1 with h2
      rw [← h2]
      rfl
  have h := fetch_many_returns_successes_in_order fetch3 [queryA, queryB, queryC] ht
  refine ⟨?_, ?_⟩
  · rw [h]; rfl
  · rw [h]; rfl

/-- C8: the pipeline run returns `True` exactly when configuration
validation, loader construction and the connection test succeed and both
the extracted and transformed lists are non-empty — independently of the
per-record outcomes inside `load_multiple_records`. -/
theorem pipeline_success_iff (env : PipelineEnv) :
    (run_etl_pipeline env).1 = true ↔
      env.config_ok = true ∧ env.loader_init_ok = true ∧ env.db_ok = true ∧
      fetch_weather_for_cities env.fetch Config.CITIES ≠ [] ∧
      transform_multiple_records env.now
        (fetch_weather_for_cities env.fetch Config.CITIES) ≠ [] := by
  rcases env with ⟨cok, lok, dok, fetch, now, db, faults⟩
  cases cok <;> cases lok <;> cases dok <;> simp [run_etl_pipeline]
  cases hraw : fetch_weather_for_cities fetch Config.CITIES with
  | nil => simp [hraw]
  | cons a as =>
    cases htr : transform_multiple_records now (a :: as) with
    | nil => simp [htr]
    | cons b bs => simp [htr]
